import Mathlib

/-!
Shallow embedding of the Weather_App backend (src/backend/server.js, i.e. the
Express server and the TypeScript server document concatenated with it).
Upstream HTTP interactions are modelled as explicit outcome values handed to
the embedded handlers; the handlers record how many upstream calls they make
and which backoff sleeps they perform.
-/

/-- JavaScript Math.round on an exact rational: round half toward positive
infinity, i.e. floor(x + 1/2).  Uses the executable Rat.floor, which agrees
with the mathematical floor. -/
def jsRound (q : ℚ) : ℤ := (q + 1/2).floor

/-- Fetch-API success flag: response.ok holds exactly for statuses 200..299. -/
def isOk (status : Nat) : Bool := decide (200 ≤ status ∧ status < 300)

/-- Backoff delay computed in callGeminiAPI:
Math.min(1000 * Math.pow(2, attempt), 5000). -/
def backoffDelay (attempt : Nat) : Nat := min (1000 * 2 ^ attempt) 5000

/-! ### Gemini response shape and text extraction -/

/-- One element of a candidate's content.parts array; text may be absent. -/
structure GeminiPart where
  text : Option String
deriving DecidableEq

/-- A candidate's content object. -/
structure GeminiContent where
  parts : List GeminiPart
deriving DecidableEq

/-- One generation candidate; content may be absent. -/
structure GeminiCandidate where
  content : Option GeminiContent
deriving DecidableEq

/-- Parsed JSON body of a Gemini generateContent response.  An absent
candidates array is modelled as the empty list. -/
structure GeminiResponse where
  candidates : List GeminiCandidate
deriving DecidableEq

/-- The optional-chaining walk data.candidates?.[0]?.content?.parts?.[0]?.text
without the final falsy coercion. -/
def firstPartText (r : GeminiResponse) : Option String :=
  match r.candidates.head? with
  | none => none
  | some cand =>
    match cand.content with
    | none => none
    | some content =>
      match content.parts.head? with
      | none => none
      | some part => part.text

/-- data.candidates?.[0]?.content?.parts?.[0]?.text || null: the JS
|| null also turns an empty-string text into null. -/
def extractText (r : GeminiResponse) : Option String :=
  match firstPartText r with
  | some t => if t = "" then none else some t
  | none => none

/-! ### callGeminiAPI retry loop -/

/-- What a single upstream fetch of the Gemini endpoint does: either the
transport throws, or an HTTP response with some status and parsed body
arrives. -/
inductive FetchOutcome where
  | transportError
  | httpResponse (status : Nat) (body : GeminiResponse)

/-- Errors surfaced by the embedded callGeminiAPI.  undef models the
throw of an undefined lastError when the loop never ran. -/
inductive GeminiError where
  | transport
  | httpStatus (status : Nat)
  | undef
deriving DecidableEq

/-- Result of one iteration of the try-block of callGeminiAPI, from the
fetch onward: a successful return, a continue with lastError set (the 429
branch), or an exception reaching the surrounding catch. -/
inductive AttemptStep where
  | done (text : Option String)
  | retryWith (e : GeminiError)
  | thrown (e : GeminiError)
deriving DecidableEq

/-- The try-block of one attempt of callGeminiAPI.  A non-ok response that is
429 with attempts remaining sets lastError and continues; any other non-ok
response is thrown (and lands in the catch of the same iteration); on an ok
response the candidate text is extracted and returned. -/
def attemptOnce (o : FetchOutcome) (attempt retries : Nat) : AttemptStep :=
  match o with
  | .transportError => .thrown .transport
  | .httpResponse status body =>
    if isOk status then .done (extractText body)
    else if status = 429 ∧ attempt < retries - 1 then .retryWith (.httpStatus status)
    else .thrown (.httpStatus status)

/-- Observable result of a whole callGeminiAPI run: the returned value or the
thrown error, the number of upstream fetches performed, and the backoff sleeps
performed, as (attempt, milliseconds) pairs in execution order. -/
structure CallResult where
  result : Except GeminiError (Option String)
  fetches : Nat
  delays : List (Nat × Nat)

/-- The for-loop of callGeminiAPI, structurally recursive on the number of
remaining iterations (fuel); attempt is the 0-indexed loop counter.  The
catch-block retries any thrown error while attempt < retries - 1 and rethrows
it on the last attempt; on loop exit the recorded lastError is thrown. -/
def geminiLoop (outcomes : Nat → FetchOutcome) (retries : Nat) :
    Nat → Nat → Option GeminiError → CallResult
  | 0, _, lastError => { result := .error (lastError.getD .undef), fetches := 0, delays := [] }
  | fuel + 1, attempt, _ =>
    let sleeps : List (Nat × Nat) :=
      if 0 < attempt then [(attempt, backoffDelay attempt)] else []
    match attemptOnce (outcomes attempt) attempt retries with
    | .done text => { result := .ok text, fetches := 1, delays := sleeps }
    | .retryWith e =>
      let r := geminiLoop outcomes retries fuel (attempt + 1) (some e)
      { result := r.result, fetches := r.fetches + 1, delays := sleeps ++ r.delays }
    | .thrown e =>
      if attempt < retries - 1 then
        let r := geminiLoop outcomes retries fuel (attempt + 1) (some e)
        { result := r.result, fetches := r.fetches + 1, delays := sleeps ++ r.delays }
      else { result := .error e, fetches := 1, delays := sleeps }

/-- callGeminiAPI(prompt, systemInstruction, jsonMode, retries): the prompt
and body construction do not affect the modelled control flow, which depends
only on the per-attempt upstream outcomes.  The source's default is
retries = 3. -/
def callGeminiAPI (outcomes : Nat → FetchOutcome) (retries : Nat) : CallResult :=
  geminiLoop outcomes retries retries 0 none

/-! ### Weather payloads and fetchWeather -/

/-- One element of the weather array: item.weather[j].main/.description. -/
structure WeatherCond where
  main : String
  description : String
deriving DecidableEq

/-- wind object of a forecast item. -/
structure WindInfo where
  speed : ℚ
deriving DecidableEq

/-- main object of a forecast item. -/
structure ItemMain where
  temp : ℚ
  humidity : ℚ
deriving DecidableEq

/-- sys object of a forecast item (period-of-day code). -/
structure ItemSys where
  pod : String
deriving DecidableEq

/-- One entry of the upstream forecast list. -/
structure ForecastItem where
  dt : Nat
  main : ItemMain
  weather : List WeatherCond
  wind : WindInfo
  sys : ItemSys
deriving DecidableEq

/-- city object of the forecast payload. -/
structure CityInfo where
  name : String
deriving DecidableEq

/-- Parsed JSON body of a successful upstream forecast call. -/
structure ForecastPayload where
  list : List ForecastItem
  city : CityInfo
deriving DecidableEq

/-- DailyForecast as produced by fetchWeather. -/
structure DailyForecast where
  date : String
  temp : ℤ
  condition : String
deriving DecidableEq

/-- WeatherData as produced by fetchWeather.  The source always fills the
forecast field, so it is modelled as non-optional. -/
structure WeatherData where
  temperature : ℤ
  condition : String
  description : String
  humidity : ℚ
  windSpeed : ℤ
  isDay : Bool
  location : String
  forecast : List DailyForecast
deriving DecidableEq

/-- What a single upstream fetch of the forecast endpoint does. -/
inductive FetchOutcomeW where
  | networkError
  | notOk (status : Nat)
  | ok (data : ForecastPayload)

/-- The data.list.forEach loop of fetchWeather building dailyForecasts.
dateLabel abstracts new Date(item.dt * 1000).toLocaleDateString(locale,
weekday short), whose output is locale-table data; seen models the seenDates
Set as the list of labels added so far.  Accessing item.weather[0].main on an
item with an empty weather array throws in JS, which the surrounding catch
turns into the Weather unavailable error. -/
def buildForecasts (dateLabel : Nat → String) :
    List ForecastItem → List DailyForecast → List String →
    Except String (List DailyForecast)
  | [], acc, _ => .ok acc
  | item :: rest, acc, seen =>
    let date := dateLabel item.dt
    if date ∉ seen ∧ acc.length < 5 then
      match item.weather.head? with
      | none => .error "Weather unavailable"
      | some w =>
        buildForecasts dateLabel rest
          (acc ++ [{ date := date, temp := jsRound item.main.temp, condition := w.main }])
          (date :: seen)
    else
      buildForecasts dateLabel rest acc seen

/-- fetchWeather, from the upstream response onward.  A non-ok status throws
Weather API Error, and every exception inside the try-block is caught and
rethrown as Weather unavailable; reading data.list[0] of an empty list or
weather[0] of an empty array throws and hence also yields that error. -/
def fetchWeather (dateLabel : Nat → String) (upstream : FetchOutcomeW) :
    Except String WeatherData :=
  match upstream with
  | .networkError => .error "Weather unavailable"
  | .notOk _ => .error "Weather unavailable"
  | .ok data =>
    match data.list.head? with
    | none => .error "Weather unavailable"
    | some current =>
      match buildForecasts dateLabel data.list [] [] with
      | .error e => .error e
      | .ok fs =>
        match current.weather.head? with
        | none => .error "Weather unavailable"
        | some curW =>
          .ok
            { temperature := jsRound current.main.temp
              condition := curW.main
              description := curW.description
              humidity := current.main.humidity
              windSpeed := jsRound (current.wind.speed * 3.6)
              isDay := current.sys.pod = "d"
              location := data.city.name
              forecast := fs }

/-! ### HTTP handlers -/

/-- main object of the current-weather payload used by the GET endpoint. -/
structure CurrentMain where
  temp : ℚ
  feels_like : ℚ
  humidity : ℚ
deriving DecidableEq

/-- sys object of the current-weather payload. -/
structure CurrentSys where
  country : String
deriving DecidableEq

/-- Parsed JSON body of a successful current-weather call (GET endpoint). -/
structure CurrentPayload where
  name : String
  sys : CurrentSys
  main : CurrentMain
  weather : List WeatherCond
  wind : WindInfo
deriving DecidableEq

/-- What a single axios.get of the current-weather endpoint does:
axios throws for any non-2xx status, exposing error.response.status, or
throws with no response on a transport error. -/
inductive AxiosOutcome where
  | ok (data : CurrentPayload)
  | httpError (status : Nat)
  | networkError

/-- Response body of GET /api/weather. -/
inductive GetWeatherBody where
  | ok (city country : String) (temperature feels_like humidity : ℚ)
      (weather description : String) (wind_speed : ℚ)
  | err (msg : String)
deriving DecidableEq

/-- Response of GET /api/weather together with the number of upstream
HTTP calls the handler performed. -/
structure GetWeatherResp where
  status : Nat
  body : GetWeatherBody
  upstreamCalls : Nat
deriving DecidableEq

/-- GET /api/weather.  req.query.city is a string or absent; !city is also
true for the empty string.  data.weather[0] of an empty array makes the
success path throw, which the catch maps to 500 (the thrown TypeError has no
response field). -/
def getWeatherHandler (city : Option String) (upstream : AxiosOutcome) :
    GetWeatherResp :=
  match city with
  | none => { status := 400, body := .err "City is required", upstreamCalls := 0 }
  | some c =>
    if c = "" then { status := 400, body := .err "City is required", upstreamCalls := 0 }
    else
      match upstream with
      | .ok data =>
        match data.weather.head? with
        | some w =>
          { status := 200
            body := .ok data.name data.sys.country data.main.temp data.main.feels_like
              data.main.humidity w.main w.description data.wind.speed
            upstreamCalls := 1 }
        | none =>
          { status := 500, body := .err "Failed to fetch weather data", upstreamCalls := 1 }
      | .httpError s =>
        if s = 404 then
          { status := 404, body := .err "City not found", upstreamCalls := 1 }
        else
          { status := 500, body := .err "Failed to fetch weather data", upstreamCalls := 1 }
      | .networkError =>
        { status := 500, body := .err "Failed to fetch weather data", upstreamCalls := 1 }

/-- req.body.query of POST /api/weather: a city-name string or a
latitude/longitude pair, modelled as a tagged variant. -/
inductive WQuery where
  | byName (s : String)
  | byCoords (lat lon : ℚ)
deriving DecidableEq

/-- JS falsiness of the query value: the empty string is falsy, every other
string and every object is truthy. -/
def jsFalsyQuery : WQuery → Bool
  | .byName s => s = ""
  | .byCoords _ _ => false

/-- Response body of POST /api/weather. -/
inductive PostWeatherBody where
  | ok (wd : WeatherData)
  | err (msg : String)
deriving DecidableEq

/-- Response of POST /api/weather together with the number of upstream
HTTP calls performed. -/
structure PostWeatherResp where
  status : Nat
  body : PostWeatherBody
  upstreamCalls : Nat
deriving DecidableEq

/-- POST /api/weather: validates query, calls fetchWeather, maps any thrown
error to 500 with the error message as body. -/
def postWeatherHandler (dateLabel : Nat → String) (query : Option WQuery)
    (upstream : FetchOutcomeW) : PostWeatherResp :=
  match query with
  | none => { status := 400, body := .err "Query is required", upstreamCalls := 0 }
  | some q =>
    if jsFalsyQuery q then
      { status := 400, body := .err "Query is required", upstreamCalls := 0 }
    else
      match fetchWeather dateLabel upstream with
      | .ok wd => { status := 200, body := .ok wd, upstreamCalls := 1 }
      | .error msg => { status := 500, body := .err msg, upstreamCalls := 1 }

/-- JavaScript String.prototype.trim: strip leading and trailing whitespace
characters.  Implemented directly over the character list so that it is
kernel-executable. -/
def jsTrim (s : String) : String :=
  { data := ((s.data.dropWhile Char.isWhitespace).reverse.dropWhile
      Char.isWhitespace).reverse }

/-- result.trim().replace(/['"]/g, ''): the replace removes every
single-quote (code 39) and double-quote (code 34) character, not only the
surrounding ones. -/
def stripQuotes (s : String) : String :=
  { data := s.data.filter (fun c => c.toNat != 39 && c.toNat != 34) }

/-- Response body of POST /api/extract-city. -/
inductive ExtractBody where
  | err (msg : String)
  | city (c : Option String)
deriving DecidableEq

/-- Response of POST /api/extract-city. -/
structure ExtractResp where
  status : Nat
  body : ExtractBody
deriving DecidableEq

/-- POST /api/extract-city, from the callGeminiAPI result onward: the gemini
argument is the outcome of the awaited call (its thrown error or its returned
string-or-null value).  A thrown error is caught and answered with a 200 and
a null city. -/
def extractCityHandler (query : Option String)
    (gemini : Except GeminiError (Option String)) : ExtractResp :=
  match query with
  | none => { status := 400, body := .err "Query is required" }
  | some q =>
    if q = "" then { status := 400, body := .err "Query is required" }
    else
      match gemini with
      | .error _ => { status := 200, body := .city none }
      | .ok result =>
        match result with
        | none => { status := 200, body := .city none }
        | some r =>
          if r = "NONE" ∨ r = "" then { status := 200, body := .city none }
          else { status := 200, body := .city (some (stripQuotes (jsTrim r))) }

/-- Response body of POST /api/chat. -/
inductive ChatBody where
  | err (msg : String)
  | text (t : String)
deriving DecidableEq

/-- Response of POST /api/chat. -/
structure ChatResp where
  status : Nat
  body : ChatBody
deriving DecidableEq

/-- error.message of the modelled Gemini errors, with the handler's
fallback string for a message-less error. -/
def geminiErrorMessage : GeminiError → String
  | .transport => "fetch failed"
  | .httpStatus s => "Gemini API Error: " ++ toString s
  | .undef => "Chat processing failed"

/-- POST /api/chat, from the callGeminiAPI result onward: prompt assembly
does not affect the modelled control flow.  A falsy aiResponse (null, or the
empty string) yields a 500 with No response from AI. -/
def chatHandler (message : Option String)
    (gemini : Except GeminiError (Option String)) : ChatResp :=
  match message with
  | none => { status := 400, body := .err "Message is required" }
  | some m =>
    if m = "" then { status := 400, body := .err "Message is required" }
    else
      match gemini with
      | .error e => { status := 500, body := .err (geminiErrorMessage e) }
      | .ok none => { status := 500, body := .err "No response from AI" }
      | .ok (some t) =>
        if t = "" then { status := 500, body := .err "No response from AI" }
        else { status := 200, body := .text t }

/-! ### Spec-side model of the daily summary, for the refinement claim -/

/-- Modelled from the spec: keeping the first entry seen for each distinct
day label, in order of first appearance of that label in the upstream list.
Stated independently of the source's fold-with-set so the two can be
compared. -/
def firstPerDay (dateLabel : Nat → String) : List ForecastItem → List ForecastItem
  | [] => []
  | x :: xs =>
    x :: firstPerDay dateLabel (xs.filter (fun y => decide (dateLabel y.dt ≠ dateLabel x.dt)))
termination_by l => l.length
decreasing_by
  simp only [List.length_cons]
  exact Nat.lt_succ_of_le (List.length_filter_le _ _)

/-- The DailyForecast record built from one kept forecast item; the condition
default for an impossible empty weather array is irrelevant on the success
path. -/
def itemSummary (dateLabel : Nat → String) (item : ForecastItem) : DailyForecast :=
  { date := dateLabel item.dt
    temp := jsRound item.main.temp
    condition := (item.weather.head?.map WeatherCond.main).getD "" }

/-! ### Concrete values used by witnesses and counterexamples -/

/-- A Gemini body with one candidate carrying the text hi. -/
def respHi : GeminiResponse :=
  { candidates := [{ content := some { parts := [{ text := some "hi" }] } }] }

/-- A Gemini body with no candidates at all. -/
def emptyGeminiResponse : GeminiResponse := { candidates := [] }

/-- A Gemini body with one candidate whose text is the empty string. -/
def respEmptyText : GeminiResponse :=
  { candidates := [{ content := some { parts := [{ text := some "" }] } }] }

/-- Upstream behaviour: first call answers HTTP 500, later calls answer
HTTP 200 with a candidate. -/
def outcomesC1 : Nat → FetchOutcome := fun n =>
  if n = 0 then .httpResponse 500 emptyGeminiResponse else .httpResponse 200 respHi

/-- Upstream behaviour: every call fails at the transport layer. -/
def allFailOutcomes : Nat → FetchOutcome := fun _ => .transportError

/-- A concrete day-label function: the calendar day index of the timestamp. -/
def dateLabelEx : Nat → String := fun dt => toString (dt / 86400)

/-- A concrete upstream forecast payload with two items on distinct days. -/
def payloadEx : ForecastPayload :=
  { list :=
      [ { dt := 0
          main := { temp := 10.4, humidity := 80 }
          weather := [{ main := "Clouds", description := "overcast clouds" }]
          wind := { speed := 5 }
          sys := { pod := "d" } }
      , { dt := 86400
          main := { temp := -1.5, humidity := 70 }
          weather := [{ main := "Rain", description := "light rain" }]
          wind := { speed := 0 }
          sys := { pod := "n" } } ]
    city := { name := "Testville" } }

/-- The WeatherData fetchWeather produces from payloadEx. -/
def wdEx : WeatherData :=
  { temperature := 10
    condition := "Clouds"
    description := "overcast clouds"
    humidity := 80
    windSpeed := 18
    isDay := true
    location := "Testville"
    forecast :=
      [ { date := "0", temp := 10, condition := "Clouds" }
      , { date := "1", temp := -1, condition := "Rain" } ] }

/-! ### General lemmas about the embedded code -/

theorem jsRound_eq_floor (q : ℚ) : jsRound q = ⌊q + 1/2⌋ := by
  unfold jsRound
  rw [Rat.floor_def', Rat.floor_def]

theorem attemptOnce_retryWith {o : FetchOutcome} {a r : Nat} {e : GeminiError}
    (h : attemptOnce o a r = .retryWith e) : a < r - 1 := by
  unfold attemptOnce at h
  rcases o with _ | ⟨s, b⟩
  · simp at h
  · by_cases h1 : isOk s = true
    · simp [h1] at h
    · by_cases h2 : s = 429 ∧ a < r - 1
      · exact h2.2
      · simp [h1, h2] at h

theorem geminiLoop_fetches_le (outcomes : Nat → FetchOutcome) (retries : Nat) :
    ∀ (fuel attempt : Nat) (le : Option GeminiError),
    (geminiLoop outcomes retries fuel attempt le).fetches ≤ fuel := by
  intro fuel
  induction fuel with
  | zero => intro a le; simp [geminiLoop]
  | succ n ih =>
    intro a le
    simp only [geminiLoop]
    split
    · simp
    · simpa using ih (a + 1) _
    · split
      · simpa using ih (a + 1) _
      · simp

theorem geminiLoop_error_fetches (outcomes : Nat → FetchOutcome) (retries : Nat) :
    ∀ (fuel attempt : Nat) (le : Option GeminiError) (e : GeminiError),
    attempt + fuel = retries → 0 < fuel →
    (geminiLoop outcomes retries fuel attempt le).result = .error e →
    (geminiLoop outcomes retries fuel attempt le).fetches = fuel := by
  intro fuel
  induction fuel with
  | zero => intro a le e _ h0; omega
  | succ n ih =>
    intro a le e hsum _ hres
    simp only [geminiLoop] at hres ⊢
    split at hres
    · simp at hres
    · rename_i e' hstep
      have ha : a < retries - 1 := attemptOnce_retryWith hstep
      have hn : 0 < n := by omega
      have := ih (a + 1) (some e') e (by omega) hn (by simpa using hres)
      simp [hstep, this]
    · rename_i e' hstep
      split at hres
      · rename_i hc
        have hn : 0 < n := by omega
        have := ih (a + 1) (some e') e (by omega) hn (by simpa using hres)
        simp [hstep, hc, this]
      · rename_i hc
        have : n = 0 := by omega
        simp [hstep, hc, this]

theorem geminiLoop_delays (outcomes : Nat → FetchOutcome) (retries : Nat) :
    ∀ (fuel attempt : Nat) (le : Option GeminiError), 1 ≤ attempt →
    (geminiLoop outcomes retries fuel attempt le).delays =
      (List.range' attempt (geminiLoop outcomes retries fuel attempt le).fetches).map
        (fun n => (n, backoffDelay n)) := by
  intro fuel
  induction fuel with
  | zero => intro a le _; simp [geminiLoop]
  | succ n ih =>
    intro a le ha
    simp only [geminiLoop]
    split
    · simp [List.range', Nat.lt_of_lt_of_le Nat.zero_lt_one ha]
    · rename_i e' hstep
      simp only [Nat.lt_of_lt_of_le Nat.zero_lt_one ha, if_true]
      rw [ih (a + 1) (some e') (by omega)]
      simp [List.range']
    · split
      · rename_i hc
        simp only [Nat.lt_of_lt_of_le Nat.zero_lt_one ha, if_true]
        rw [ih (a + 1) _ (by omega)]
        simp [List.range']
      · simp [List.range', Nat.lt_of_lt_of_le Nat.zero_lt_one ha]

theorem callGeminiAPI_delays (outcomes : Nat → FetchOutcome) (retries : Nat) :
    (callGeminiAPI outcomes retries).delays =
      (List.range' 1 ((callGeminiAPI outcomes retries).fetches - 1)).map
        (fun n => (n, backoffDelay n)) := by
  unfold callGeminiAPI
  cases retries with
  | zero => simp [geminiLoop]
  | succ r =>
    simp only [geminiLoop]
    split
    · simp
    · rename_i e' hstep
      rw [geminiLoop_delays outcomes (r + 1) r 1 (some e') (by omega)]
      simp
    · split
      · rename_i hc
        rw [geminiLoop_delays outcomes (r + 1) r 1 _ (by omega)]
        simp
      · simp

theorem callGeminiAPI_ok_first (outcomes : Nat → FetchOutcome) (retries s : Nat)
    (resp : GeminiResponse) (ho : outcomes 0 = .httpResponse s resp)
    (hs : isOk s = true) (hr : 0 < retries) :
    (callGeminiAPI outcomes retries).result = .ok (extractText resp) := by
  cases retries with
  | zero => omega
  | succ r =>
    simp [callGeminiAPI, geminiLoop, ho, attemptOnce, hs]

theorem mem_firstPerDay (dl : Nat → String) :
    ∀ (n : Nat) (l : List ForecastItem), l.length ≤ n →
    ∀ x ∈ firstPerDay dl l, x ∈ l := by
  intro n
  induction n with
  | zero =>
    intro l hl x hx
    cases l with
    | nil => simp [firstPerDay] at hx
    | cons y ys => simp at hl
  | succ n ih =>
    intro l hl x hx
    cases l with
    | nil => simp [firstPerDay] at hx
    | cons y ys =>
      rw [firstPerDay] at hx
      rcases List.mem_cons.1 hx with rfl | hx'
      · exact List.mem_cons_self _ _
      · have hlen : (ys.filter (fun z => decide (dl z.dt ≠ dl y.dt))).length ≤ n := by
          have := List.length_filter_le (fun z => decide (dl z.dt ≠ dl y.dt)) ys
          simp only [List.length_cons] at hl
          omega
        exact List.mem_cons_of_mem _ (List.mem_of_mem_filter (ih _ hlen x hx'))

theorem firstPerDay_labels_nodup (dl : Nat → String) :
    ∀ (n : Nat) (l : List ForecastItem), l.length ≤ n →
    ((firstPerDay dl l).map (fun it => dl it.dt)).Nodup := by
  intro n
  induction n with
  | zero =>
    intro l hl
    cases l with
    | nil => simp [firstPerDay]
    | cons y ys => simp at hl
  | succ n ih =>
    intro l hl
    cases l with
    | nil => simp [firstPerDay]
    | cons y ys =>
      rw [firstPerDay]
      simp only [List.map_cons, List.nodup_cons]
      have hlen : (ys.filter (fun z => decide (dl z.dt ≠ dl y.dt))).length ≤ n := by
        have := List.length_filter_le (fun z => decide (dl z.dt ≠ dl y.dt)) ys
        simp only [List.length_cons] at hl
        omega
      refine ⟨?_, ih _ hlen⟩
      intro hmem
      rcases List.mem_map.1 hmem with ⟨z, hz, hze⟩
      have hzf := mem_firstPerDay dl n _ hlen z hz
      have := List.of_mem_filter hzf
      simp only [decide_eq_true_eq] at this
      exact this hze

theorem buildForecasts_ok (dl : Nat → String) :
    ∀ (items : List ForecastItem) (acc : List DailyForecast) (seen : List String)
      (fs : List DailyForecast),
    buildForecasts dl items acc seen = .ok fs →
    fs = acc ++ ((firstPerDay dl (items.filter
        (fun it => decide (dl it.dt ∉ seen)))).take (5 - acc.length)).map
        (itemSummary dl) := by
  intro items
  induction items with
  | nil =>
    intro acc seen fs h
    simp only [buildForecasts, Except.ok.injEq] at h
    simp [← h, firstPerDay]
  | cons item rest ih =>
    intro acc seen fs h
    rw [buildForecasts] at h
    by_cases hg : dl item.dt ∉ seen ∧ acc.length < 5
    · rw [if_pos hg] at h
      cases hw : item.weather.head? with
      | none => rw [hw] at h; simp at h
      | some w =>
        rw [hw] at h
        have hrec := ih _ _ _ h
        have hfc : (item :: rest).filter (fun it => decide (dl it.dt ∉ seen)) =
            item :: rest.filter (fun it => decide (dl it.dt ∉ seen)) := by
          simp [List.filter_cons, hg.1]
        rw [hfc, firstPerDay]
        have hff : (rest.filter (fun it => decide (dl it.dt ∉ seen))).filter
              (fun y => decide (dl y.dt ≠ dl item.dt)) =
            rest.filter (fun it => decide (dl it.dt ∉ dl item.dt :: seen)) := by
          rw [List.filter_filter]
          apply List.filter_congr
          intro y _
          simp [List.mem_cons, not_or, decide_eq_decide, and_comm]
        have h5 : 5 - acc.length = (5 - (acc.length + 1)) + 1 := by omega
        have hsum : itemSummary dl item =
            { date := dl item.dt, temp := jsRound item.main.temp, condition := w.main } := by
          simp [itemSummary, hw]
        rw [h5, List.take_succ_cons, List.map_cons, hsum, hff, hrec]
        simp
    · rw [if_neg hg] at h
      have hrec := ih _ _ _ h
      by_cases hm : dl item.dt ∈ seen
      · have hfc : (item :: rest).filter (fun it => decide (dl it.dt ∉ seen)) =
            rest.filter (fun it => decide (dl it.dt ∉ seen)) := by
          simp [List.filter_cons, hm]
        rw [hfc]
        exact hrec
      · have hlen : ¬ acc.length < 5 := fun hlt => hg ⟨hm, hlt⟩
        have h50 : 5 - acc.length = 0 := by omega
        simp only [h50, List.take_zero, List.map_nil, List.append_nil] at hrec ⊢
        exact hrec

theorem buildForecasts_spec (dl : Nat → String) (items : List ForecastItem)
    (fs : List DailyForecast) (h : buildForecasts dl items [] [] = .ok fs) :
    fs = ((firstPerDay dl items).take 5).map (itemSummary dl) := by
  have hh := buildForecasts_ok dl items [] [] fs h
  simpa using hh

theorem jsRound_ex1 : jsRound 10.4 = 10 := by
  rw [jsRound_eq_floor]; norm_num

theorem jsRound_ex2 : jsRound (-1.5) = -1 := by
  rw [jsRound_eq_floor]; norm_num

theorem jsRound_ex3 : jsRound ((5 : ℚ) * 3.6) = 18 := by
  rw [jsRound_eq_floor]; norm_num

theorem fetchWeather_payloadEx :
    fetchWeather dateLabelEx (FetchOutcomeW.ok payloadEx) = Except.ok wdEx := by
  simp +decide [fetchWeather, payloadEx, dateLabelEx, buildForecasts, wdEx,
    jsRound_ex1, jsRound_ex2, jsRound_ex3]

/-- C1 (amended): callGeminiAPI makes at most 3 upstream HTTP calls, and it
fails (surfacing the last error as GenerationFailed) only after making all 3
calls: every failed attempt, including one with a non-success non-429 HTTP
status, is retried while attempts remain. -/
theorem c1_gemini_call_bound_and_retry_exhaustion (outcomes : Nat → FetchOutcome) :
    (callGeminiAPI outcomes 3).fetches ≤ 3 ∧
    ∀ e, (callGeminiAPI outcomes 3).result = Except.error e →
      (callGeminiAPI outcomes 3).fetches = 3 := by
  refine ⟨geminiLoop_fetches_le outcomes 3 3 0 none, ?_⟩
  intro e he
  exact geminiLoop_error_fetches outcomes 3 3 0 none e rfl (by omega) he

/-- C1 counterexample: the first upstream call returns HTTP 500 (non-success,
not 429), yet the client does not fail immediately: it makes a second call
and returns its text. -/
theorem c1_counterexample :
    outcomesC1 0 = FetchOutcome.httpResponse 500 emptyGeminiResponse ∧
    isOk 500 = false ∧ (500 : Nat) ≠ 429 ∧
    (callGeminiAPI outcomesC1 3).fetches = 2 ∧
    (callGeminiAPI outcomesC1 3).result = Except.ok (some "hi") :=
  ⟨rfl, rfl, by decide, rfl, rfl⟩

/-- C1 witness: with every upstream call failing at the transport layer, the
client makes exactly 3 calls and surfaces an error. -/
theorem c1_witness :
    (callGeminiAPI allFailOutcomes 3).result = Except.error GeminiError.transport ∧
    (callGeminiAPI allFailOutcomes 3).fetches = 3 :=
  ⟨rfl, (c1_gemini_call_bound_and_retry_exhaustion allFailOutcomes).2
    GeminiError.transport rfl⟩

/-- C2 (amended): for a present query, city extraction answers HTTP 200 and
returns a null city exactly when the model result is null, the empty string,
or the exact string NONE; any other result, including a whitespace-only one,
is trimmed and has every quote character removed (a whitespace-only result
hence yields an empty-string city, not null). -/
theorem c2_extract_city_normalization (s : String) (r : Option String) (hs : s ≠ "") :
    (extractCityHandler (some s) (Except.ok r)).status = 200 ∧
    ((r = none ∨ r = some "" ∨ r = some "NONE") →
      (extractCityHandler (some s) (Except.ok r)).body = ExtractBody.city none) ∧
    (∀ t, r = some t → t ≠ "NONE" → t ≠ "" →
      (extractCityHandler (some s) (Except.ok r)).body =
        ExtractBody.city (some (stripQuotes (jsTrim t)))) := by
  refine ⟨?_, ?_, ?_⟩
  · cases r with
    | none => simp [extractCityHandler, hs]
    | some t =>
      by_cases ht : t = "NONE" ∨ t = ""
      · simp [extractCityHandler, hs, ht]
      · simp [extractCityHandler, hs, ht]
  · intro hr
    rcases hr with rfl | rfl | rfl
    · simp [extractCityHandler, hs]
    · simp [extractCityHandler, hs]
    · simp [extractCityHandler, hs]
  · intro t ht h1 h2
    subst ht
    have : ¬ (t = "NONE" ∨ t = "") := by tauto
    simp [extractCityHandler, hs, this]

/-- C2 counterexample: a whitespace-only model result is truthy in JS, so the
endpoint returns an empty-string city rather than the null the claim
requires. -/
theorem c2_counterexample :
    jsTrim " " = "" ∧
    extractCityHandler (some "what is the weather") (Except.ok (some " ")) =
      { status := 200, body := ExtractBody.city (some "") } ∧
    ExtractBody.city (some "") ≠ ExtractBody.city none :=
  ⟨rfl, rfl, by decide⟩

/-- C2 witness: a quoted result is trimmed and dequoted. -/
theorem c2_witness :
    ("weather in paris" : String) ≠ "" ∧
    (extractCityHandler (some "weather in paris")
      (Except.ok (some " \"Paris\" "))).body = ExtractBody.city (some "Paris") := by
  refine ⟨by decide, ?_⟩
  have h := (c2_extract_city_normalization "weather in paris" (some " \"Paris\" ")
    (by decide)).2.2 " \"Paris\" " rfl (by decide) (by decide)
  rw [h]
  rfl

/-- C3 (amended): the GET city-weather endpoint maps an upstream 404 to HTTP
404 and every other upstream failure to HTTP 500; the POST forecast endpoint
maps every upstream failure, including a 404, to HTTP 500. -/
theorem c3_weather_error_mapping (c : String) (s : Nat) (dl : Nat → String)
    (q : WQuery) (hc : c ≠ "") (hq : jsFalsyQuery q = false) :
    (getWeatherHandler (some c) (AxiosOutcome.httpError 404)).status = 404 ∧
    (s ≠ 404 → (getWeatherHandler (some c) (AxiosOutcome.httpError s)).status = 500) ∧
    (getWeatherHandler (some c) AxiosOutcome.networkError).status = 500 ∧
    (postWeatherHandler dl (some q) (FetchOutcomeW.notOk s)).status = 500 ∧
    (postWeatherHandler dl (some q) FetchOutcomeW.networkError).status = 500 := by
  refine ⟨?_, ?_, ?_, ?_, ?_⟩
  · simp [getWeatherHandler, hc]
  · intro hns
    simp [getWeatherHandler, hc, hns]
  · simp [getWeatherHandler, hc]
  · simp [postWeatherHandler, hq, fetchWeather]
  · simp [postWeatherHandler, hq, fetchWeather]

/-- C3 counterexample: the POST endpoint answers 500, not 404, when the
upstream forecast call reports 404. -/
theorem c3_counterexample :
    (postWeatherHandler dateLabelEx (some (WQuery.byName "Tokyo"))
      (FetchOutcomeW.notOk 404)).status = 500 ∧ (500 : Nat) ≠ 404 :=
  ⟨rfl, by decide⟩

/-- C3 witness: concrete instances of the amended mapping. -/
theorem c3_witness :
    (getWeatherHandler (some "Tokyo") (AxiosOutcome.httpError 404)).status = 404 ∧
    (getWeatherHandler (some "Tokyo") (AxiosOutcome.httpError 500)).status = 500 ∧
    (postWeatherHandler dateLabelEx (some (WQuery.byName "Tokyo"))
      (FetchOutcomeW.notOk 404)).status = 500 := by
  have h1 := c3_weather_error_mapping "Tokyo" 500 dateLabelEx (WQuery.byName "Tokyo")
    (by decide) (by decide)
  have h2 := c3_weather_error_mapping "Tokyo" 404 dateLabelEx (WQuery.byName "Tokyo")
    (by decide) (by decide)
  exact ⟨h1.1, h1.2.1 (by decide), h2.2.2.2.1⟩

/-- C4 (confirmed): the backoff sleeps of a callGeminiAPI run are exactly one
sleep of min(1000 * 2^n, 5000) milliseconds before every executed attempt
n ≥ 1, in order, and no sleep precedes attempt 0. -/
theorem c4_backoff_delays (outcomes : Nat → FetchOutcome) (retries : Nat) :
    (callGeminiAPI outcomes retries).delays =
      (List.range' 1 ((callGeminiAPI outcomes retries).fetches - 1)).map
        (fun n => (n, min (1000 * 2 ^ n) 5000)) := by
  simpa [backoffDelay] using callGeminiAPI_delays outcomes retries

/-- C5 (confirmed): the daily summary of a successful fetchWeather run equals
the first entry seen for each distinct day label, in order of first
appearance, truncated to 5 entries; hence it has at most 5 entries and
pairwise distinct day labels. -/
theorem c5_daily_summary (dl : Nat → String) (data : ForecastPayload)
    (wd : WeatherData)
    (h : fetchWeather dl (FetchOutcomeW.ok data) = Except.ok wd) :
    wd.forecast = ((firstPerDay dl data.list).take 5).map (itemSummary dl) ∧
    wd.forecast.length ≤ 5 ∧ (wd.forecast.map DailyForecast.date).Nodup := by
  simp only [fetchWeather] at h
  split at h
  · simp at h
  · rename_i current hhead
    split at h
    · simp at h
    · rename_i fs hbf
      split at h
      · simp at h
      · rename_i curW hcw
        rw [Except.ok.injEq] at h
        subst h
        have heq := buildForecasts_spec dl data.list fs hbf
        refine ⟨heq, ?_, ?_⟩
        · rw [heq]
          simp only [List.length_map, List.length_take]
          omega
        · rw [heq, List.map_map]
          have hcomp : (DailyForecast.date ∘ itemSummary dl) = fun it => dl it.dt := rfl
          rw [hcomp, List.map_take]
          exact ((List.map (fun it => dl it.dt) (firstPerDay dl data.list)).take_sublist
            5).nodup (firstPerDay_labels_nodup dl data.list.length data.list le_rfl)

/-- C5 witness: the two-day payload yields its two first entries in order. -/
theorem c5_witness :
    fetchWeather dateLabelEx (FetchOutcomeW.ok payloadEx) = Except.ok wdEx ∧
    (wdEx.forecast =
        ((firstPerDay dateLabelEx payloadEx.list).take 5).map (itemSummary dateLabelEx) ∧
      wdEx.forecast.length ≤ 5 ∧ (wdEx.forecast.map DailyForecast.date).Nodup) :=
  ⟨fetchWeather_payloadEx,
    c5_daily_summary dateLabelEx payloadEx wdEx fetchWeather_payloadEx⟩

/-- C6 (confirmed): a successful fetchWeather run reports
windSpeed = round(wind.speed * 3.6) of the first list entry, its rounded
temperature as the current temperature, and every forecast-entry temperature
is the rounded upstream temperature of some list item. -/
theorem c6_rounding (dl : Nat → String) (data : ForecastPayload) (wd : WeatherData)
    (h : fetchWeather dl (FetchOutcomeW.ok data) = Except.ok wd) :
    ∃ current, data.list.head? = some current ∧
      wd.windSpeed = jsRound (current.wind.speed * 3.6) ∧
      wd.temperature = jsRound current.main.temp ∧
      ∀ df ∈ wd.forecast, ∃ item, item ∈ data.list ∧
        df.temp = jsRound item.main.temp := by
  simp only [fetchWeather] at h
  split at h
  · simp at h
  · rename_i current hhead
    split at h
    · simp at h
    · rename_i fs hbf
      split at h
      · simp at h
      · rename_i curW hcw
        rw [Except.ok.injEq] at h
        subst h
        refine ⟨current, hhead, rfl, rfl, ?_⟩
        intro df hdf
        simp only at hdf
        rw [buildForecasts_spec dl data.list fs hbf] at hdf
        rcases List.mem_map.1 hdf with ⟨item, hit, rfl⟩
        refine ⟨item, ?_, rfl⟩
        exact mem_firstPerDay dl data.list.length data.list le_rfl item
          (((firstPerDay dl data.list).take_sublist 5).mem hit)

/-- C6 witness: concrete rounded values for the two-day payload. -/
theorem c6_witness :
    fetchWeather dateLabelEx (FetchOutcomeW.ok payloadEx) = Except.ok wdEx ∧
    ∃ current, payloadEx.list.head? = some current ∧
      wdEx.windSpeed = jsRound (current.wind.speed * 3.6) ∧
      wdEx.temperature = jsRound current.main.temp ∧
      ∀ df ∈ wdEx.forecast, ∃ item, item ∈ payloadEx.list ∧
        df.temp = jsRound item.main.temp :=
  ⟨fetchWeather_payloadEx, c6_rounding dateLabelEx payloadEx wdEx fetchWeather_payloadEx⟩

/-- C7 (confirmed): a weather request carrying no location answers HTTP 400
and performs no upstream call, on both the GET endpoint (missing or empty
city) and the POST endpoint (missing query), whatever the upstream would
have answered. -/
theorem c7_missing_location_rejected (o : AxiosOutcome) (dl : Nat → String)
    (o2 : FetchOutcomeW) :
    getWeatherHandler none o =
      { status := 400, body := .err "City is required", upstreamCalls := 0 } ∧
    getWeatherHandler (some "") o =
      { status := 400, body := .err "City is required", upstreamCalls := 0 } ∧
    postWeatherHandler dl none o2 =
      { status := 400, body := .err "Query is required", upstreamCalls := 0 } :=
  ⟨rfl, by simp [getWeatherHandler], rfl⟩

/-- C8 (amended): on an HTTP-success response the client returns
extractText of the body without error; extractText is null when there is no
candidate, and any text it does return is the non-empty text of the first
candidate.  (An empty-string candidate text is coerced to null by the JS
|| null.) -/
theorem c8_candidate_extraction (s : Nat) (resp : GeminiResponse)
    (hs : isOk s = true) :
    (callGeminiAPI (fun _ => FetchOutcome.httpResponse s resp) 3).result =
      Except.ok (extractText resp) ∧
    (resp.candidates = [] → extractText resp = none) ∧
    (∀ t, extractText resp = some t → t ≠ "" ∧ firstPartText resp = some t) := by
  refine ⟨callGeminiAPI_ok_first _ 3 s resp rfl hs (by omega), ?_, ?_⟩
  · intro hcand
    simp [extractText, firstPartText, hcand]
  · intro t ht
    unfold extractText at ht
    cases hf : firstPartText resp with
    | none => rw [hf] at ht; simp at ht
    | some u =>
      rw [hf] at ht
      by_cases hu : u = ""
      · simp [hu] at ht
      · simp only [hu, if_false, Option.some.injEq] at ht
        subst ht
        exact ⟨hu, rfl⟩

/-- C8 counterexample: an HTTP-success response whose first candidate text is
the empty string makes the client return null rather than that text. -/
theorem c8_counterexample :
    firstPartText respEmptyText = some "" ∧
    (callGeminiAPI (fun _ => FetchOutcome.httpResponse 200 respEmptyText) 3).result =
      Except.ok none ∧
    (some "" : Option String) ≠ none :=
  ⟨rfl, rfl, by decide⟩

/-- C8 witness: a present non-empty candidate text is returned as-is. -/
theorem c8_witness :
    isOk 200 = true ∧
    (callGeminiAPI (fun _ => FetchOutcome.httpResponse 200 respHi) 3).result =
      Except.ok (extractText respHi) ∧
    extractText respHi = some "hi" :=
  ⟨rfl, (c8_candidate_extraction 200 respHi rfl).1, rfl⟩

/-- C9 (confirmed): when callGeminiAPI throws, the extract-city endpoint with
a present query still answers HTTP 200 with a null city, for every error. -/
theorem c9_extract_city_error_shield (s : String) (e : GeminiError) (hs : s ≠ "") :
    extractCityHandler (some s) (Except.error e) =
      { status := 200, body := ExtractBody.city none } := by
  simp [extractCityHandler, hs]

/-- C9 witness. -/
theorem c9_witness :
    ("weather tomorrow" : String) ≠ "" ∧
    extractCityHandler (some "weather tomorrow") (Except.error GeminiError.transport) =
      { status := 200, body := ExtractBody.city none } :=
  ⟨by decide, c9_extract_city_error_shield "weather tomorrow" GeminiError.transport
    (by decide)⟩

/-- C10 (confirmed): a chat request whose language-model call succeeds with a
null result (no candidate) or an empty text answers HTTP 500 with the
No response from AI body. -/
theorem c10_chat_empty_response (m : String) (hm : m ≠ "") :
    chatHandler (some m) (Except.ok none) =
      { status := 500, body := ChatBody.err "No response from AI" } ∧
    chatHandler (some m) (Except.ok (some "")) =
      { status := 500, body := ChatBody.err "No response from AI" } := by
  constructor
  · simp [chatHandler, hm]
  · simp [chatHandler, hm]

/-- C10 witness. -/
theorem c10_witness :
    ("hello" : String) ≠ "" ∧
    chatHandler (some "hello") (Except.ok none) =
      { status := 500, body := ChatBody.err "No response from AI" } :=
  ⟨by decide, (c10_chat_empty_response "hello" (by decide)).1⟩
